import Mathlib

set_option maxHeartbeats 1000000

/-! Shallow embedding of the FastAPI demo application in
src/phase2-dockerfile-image-building/project2-python-fastapi/app:
the response models (app/models/response.py), the health router
(app/routers/health.py) and the application entrypoint (app/main.py).

Clock readings from Python time.time, a float of seconds, are modelled
as rationals; datetime.utcnow values are modelled by the PyDateTime
structure together with its isoformat rendering. Each handler is a
function of the process state and of the clock values it observes. -/

/-- A Python value, standing in for the Any in Dict from str to Any. -/
inductive PyAny where
  | str (s : String)
  | num (q : ℚ)
deriving DecidableEq, Repr

/-- The HealthResponse model of app/models/response.py: status, version,
uptime, with uptime a float (modelled as a rational). -/
structure HealthResponse where
  status : String
  version : String
  uptime : ℚ
deriving DecidableEq, Repr

/-- The MessageResponse model of app/models/response.py: message, version,
timestamp, all strings. -/
structure MessageResponse where
  message : String
  version : String
  timestamp : String
deriving DecidableEq, Repr

/-- The DetailResponse model of app/models/response.py: a mapping from
string keys to arbitrary values. -/
structure DetailResponse where
  detail : List (String × PyAny)
deriving DecidableEq, Repr

/-- A naive datetime value as produced by Python datetime.utcnow. -/
structure PyDateTime where
  year : Nat
  month : Nat
  day : Nat
  hour : Nat
  minute : Nat
  second : Nat
  microsecond : Nat
deriving DecidableEq, Repr

/-- Field ranges of a Python datetime (MINYEAR = 1, MAXYEAR = 9999). -/
def PyDateTime.Valid (d : PyDateTime) : Prop :=
  1 ≤ d.year ∧ d.year ≤ 9999 ∧ 1 ≤ d.month ∧ d.month ≤ 12 ∧
  1 ≤ d.day ∧ d.day ≤ 31 ∧ d.hour ≤ 23 ∧ d.minute ≤ 59 ∧
  d.second ≤ 59 ∧ d.microsecond ≤ 999999

instance (d : PyDateTime) : Decidable d.Valid := by
  unfold PyDateTime.Valid; exact inferInstance

/-- Total order key of a datetime: lexicographic on the fields, encoded
as one natural number (the factors strictly bound each field's range). -/
def PyDateTime.toKey (d : PyDateTime) : Nat :=
  (((((d.year * 13 + d.month) * 32 + d.day) * 24 + d.hour) * 60 +
      d.minute) * 60 + d.second) * 1000000 + d.microsecond

/-- The decimal digit character for n (meaningful for n < 10). -/
def digitChar (n : Nat) : Char := Char.ofNat (48 + n)

/-- The numeric value of a decimal digit character. -/
def digitVal (c : Char) : Nat := c.toNat - 48

/-- Whether c is one of the characters 0 through 9. -/
def isDigitChar (c : Char) : Bool := 48 ≤ c.toNat && c.toNat ≤ 57

/-- Two-digit zero-padded decimal rendering, as Python %02d. -/
def pad2 (n : Nat) : List Char :=
  [digitChar (n / 10 % 10), digitChar (n % 10)]

/-- Four-digit zero-padded decimal rendering, as Python %04d. -/
def pad4 (n : Nat) : List Char :=
  [digitChar (n / 1000 % 10), digitChar (n / 100 % 10),
   digitChar (n / 10 % 10), digitChar (n % 10)]

/-- Six-digit zero-padded decimal rendering, as Python %06d. -/
def pad6 (n : Nat) : List Char :=
  [digitChar (n / 100000 % 10), digitChar (n / 10000 % 10),
   digitChar (n / 1000 % 10), digitChar (n / 100 % 10),
   digitChar (n / 10 % 10), digitChar (n % 10)]

/-- Character sequence of Python datetime.isoformat: the fixed-width
date and time fields joined by the separators, with the six-digit
microsecond fraction omitted exactly when the microsecond is zero. -/
def isoChars (d : PyDateTime) : List Char :=
  pad4 d.year ++ '-' :: (pad2 d.month ++ '-' :: (pad2 d.day ++
    'T' :: (pad2 d.hour ++ ':' :: (pad2 d.minute ++ ':' :: (pad2 d.second ++
      (if d.microsecond = 0 then [] else '.' :: pad6 d.microsecond))))))

/-- The isoformat rendering of a datetime, as a string. -/
def isoformat (d : PyDateTime) : String := ⟨isoChars d⟩

/-- Read a two-digit decimal number, requiring both characters digits. -/
def read2 (a b : Char) : Option Nat :=
  if isDigitChar a && isDigitChar b then
    some (10 * digitVal a + digitVal b)
  else none

/-- Read a four-digit decimal number, requiring all characters digits. -/
def read4 (a b c d : Char) : Option Nat :=
  if isDigitChar a && isDigitChar b && isDigitChar c && isDigitChar d then
    some (1000 * digitVal a + 100 * digitVal b + 10 * digitVal c + digitVal d)
  else none

/-- Read a six-digit decimal number, requiring all characters digits. -/
def read6 (a b c d e f : Char) : Option Nat :=
  if isDigitChar a && isDigitChar b && isDigitChar c && isDigitChar d &&
      isDigitChar e && isDigitChar f then
    some (100000 * digitVal a + 10000 * digitVal b + 1000 * digitVal c +
      100 * digitVal d + 10 * digitVal e + digitVal f)
  else none

/-- Assemble a datetime from parsed fields, accepting it only when the
fields are in range. -/
def mkValid (y mo da h mi s us : Nat) : Option PyDateTime :=
  let d : PyDateTime := ⟨y, mo, da, h, mi, s, us⟩
  if d.Valid then some d else none

/-- Parse an ISO-8601 datetime character sequence of either shape
YYYY-MM-DDTHH:MM:SS or YYYY-MM-DDTHH:MM:SS.ffffff, with range checks. -/
def parseIsoChars (cs : List Char) : Option PyDateTime :=
  match cs with
  | [y1, y2, y3, y4, c1, m1, m2, c2, d1, d2, c3, h1, h2, c4, n1, n2, c5,
     s1, s2] =>
    if c1 = '-' ∧ c2 = '-' ∧ c3 = 'T' ∧ c4 = ':' ∧ c5 = ':' then do
      mkValid (← read4 y1 y2 y3 y4) (← read2 m1 m2) (← read2 d1 d2)
        (← read2 h1 h2) (← read2 n1 n2) (← read2 s1 s2) 0
    else none
  | [y1, y2, y3, y4, c1, m1, m2, c2, d1, d2, c3, h1, h2, c4, n1, n2, c5,
     s1, s2, c6, f1, f2, f3, f4, f5, f6] =>
    if c1 = '-' ∧ c2 = '-' ∧ c3 = 'T' ∧ c4 = ':' ∧ c5 = ':' ∧ c6 = '.' then do
      mkValid (← read4 y1 y2 y3 y4) (← read2 m1 m2) (← read2 d1 d2)
        (← read2 h1 h2) (← read2 n1 n2) (← read2 s1 s2)
        (← read6 f1 f2 f3 f4 f5 f6)
    else none
  | _ => none

/-- Parse an ISO-8601 datetime string. -/
def parseIso (s : String) : Option PyDateTime := parseIsoChars s.data

/-- The health_check handler of app/routers/health.py, as a function of
the module-level startup_time and of the time.time reading it makes. -/
def health_check (startup_time now : ℚ) : HealthResponse :=
  { status := "healthy"
    version := "1.0.0"
    uptime := now - startup_time }

/-- The root handler of app/main.py, as a function of the
datetime.utcnow reading it makes. -/
def root (now : PyDateTime) : MessageResponse :=
  { message := "Welcome to FastAPI with Alpine Docker! "
    version := "1.0.0"
    timestamp := isoformat now }

/-- The constant dictionary returned by the info handler of app/main.py,
in source order. -/
def info : List (String × String) :=
  [("name", "FastAPI Demo API"),
   ("version", "1.0.0"),
   ("framework", "FastAPI"),
   ("python_version", "3.11"),
   ("server", "uvicorn"),
   ("base_image", "python:3.11-alpine"),
   ("docs", "/docs"),
   ("redoc", "/redoc")]

/-- The process-wide state: the single module-level startup_time of
app/routers/health.py, a time.time reading captured at module load. -/
structure ProcState where
  startup_time : ℚ
deriving DecidableEq, Repr

/-- The state at module load: startup_time is the time.time value t0
read when app/routers/health.py is first imported. -/
def initState (t0 : ℚ) : ProcState := ⟨t0⟩

/-- The three routed requests of the application. -/
inductive Request where
  | root
  | info
  | health
deriving DecidableEq, Repr

/-- The clock values a handler may observe during one invocation:
a time.time reading and a datetime.utcnow reading. -/
structure ClockReading where
  t : ℚ
  dt : PyDateTime
deriving DecidableEq, Repr

/-- A response value of any of the shapes the application can serialize. -/
inductive Response where
  | message (m : MessageResponse)
  | infoObj (kv : List (String × String))
  | health (h : HealthResponse)
  | detail (d : DetailResponse)
deriving DecidableEq, Repr

/-- Dispatch one request: run the matched handler on the current state
and clock reading, returning its response and the state afterwards. -/
def handle (st : ProcState) (r : Request) (c : ClockReading) :
    Response × ProcState :=
  match r with
  | .root => (.message (root c.dt), st)
  | .info => (.infoObj info, st)
  | .health => (.health (health_check st.startup_time c.t), st)

/-- Run a sequence of requests from a state, threading the state. -/
def runReqs (st : ProcState) : List (Request × ClockReading) → ProcState
  | [] => st
  | (r, c) :: rest => runReqs (handle st r c).2 rest

/-- Erase the per-call volatile fields: the timestamp of a
MessageResponse and the uptime of a HealthResponse. -/
def eraseVolatile : Response → Response
  | .message m => .message { m with timestamp := "" }
  | .health h => .health { h with uptime := 0 }
  | r => r

/-! State-preservation helpers shared by several theorems. -/

/-- Every handler returns the state it was given. -/
theorem handle_state_fixed (st : ProcState) (r : Request) (c : ClockReading) :
    (handle st r c).2 = st := by
  cases r <;> rfl

/-- Running any request sequence leaves the state unchanged. -/
theorem runReqs_fixed (l : List (Request × ClockReading)) (st : ProcState) :
    runReqs st l = st := by
  induction l generalizing st with
  | nil => rfl
  | cons p rest ih =>
    obtain ⟨r, c⟩ := p
    rw [runReqs, handle_state_fixed, ih]

/-- C1: every invocation of the GET /health handler returns a
HealthResponse whose status is the literal "healthy" and whose version
is the literal "1.0.0", for every process state and clock value. -/
theorem health_status_version_constant (st : ProcState) (c : ClockReading) :
    (handle st .health c).1 = .health (health_check st.startup_time c.t) ∧
    (health_check st.startup_time c.t).status = "healthy" ∧
    (health_check st.startup_time c.t).version = "1.0.0" :=
  ⟨rfl, rfl, rfl⟩

/-- C3: after any request history in a process whose module load captured
the clock value t0, the GET /health handler returns uptime equal to the
current clock reading minus t0; the startup reading is never
re-captured. -/
theorem uptime_eq_now_sub_startup (t0 : ℚ)
    (hist : List (Request × ClockReading)) (c : ClockReading) :
    (handle (runReqs (initState t0) hist) .health c).1 =
      .health { status := "healthy", version := "1.0.0",
                uptime := c.t - t0 } := by
  rw [runReqs_fixed]
  rfl

/-- C4: every invocation of the GET /api/info handler returns exactly the
constant mapping of the eight documented keys, with no variation between
calls. -/
theorem info_constant (st st' : ProcState) (c c' : ClockReading) :
    (handle st .info c).1 =
      .infoObj [("name", "FastAPI Demo API"),
                ("version", "1.0.0"),
                ("framework", "FastAPI"),
                ("python_version", "3.11"),
                ("server", "uvicorn"),
                ("base_image", "python:3.11-alpine"),
                ("docs", "/docs"),
                ("redoc", "/redoc")] ∧
    (handle st .info c).1 = (handle st' .info c').1 :=
  ⟨rfl, rfl⟩

/-- C5: every invocation of the GET / handler returns message equal to
the literal "Welcome to FastAPI with Alpine Docker! " with its trailing
space, version "1.0.0", and a timestamp computed from the clock reading
observed at that very call. -/
theorem root_welcome_fields (st : ProcState) (c : ClockReading) :
    (handle st .root c).1 =
      .message { message := "Welcome to FastAPI with Alpine Docker! ",
                 version := "1.0.0",
                 timestamp := isoformat c.dt } :=
  rfl

/-- C7: issuing the same request repeatedly produces structurally
identical responses once the timestamp field of MessageResponse and the
uptime field of HealthResponse are erased; every other field agrees
between any two invocations. -/
theorem idempotent_modulo_volatile (st : ProcState) (r : Request)
    (c1 c2 : ClockReading) :
    eraseVolatile (handle st r c1).1 = eraseVolatile (handle st r c2).1 := by
  cases r <;> rfl

/-- C8: startup_time, the only process-wide state, equals its module-load
value after every request sequence, and no handler invocation changes the
process state at all. -/
theorem startup_time_immutable (t0 : ℚ) (l : List (Request × ClockReading))
    (st : ProcState) (r : Request) (c : ClockReading) :
    (runReqs (initState t0) l).startup_time = t0 ∧
    (handle st r c).2 = st :=
  ⟨by rw [runReqs_fixed]; rfl, handle_state_fixed st r c⟩

/-- C9: each response model stores any well-typed field assignment
verbatim, with no value-level validation — HealthResponse accepts any
status string and any uptime, negative included — and no handler ever
returns a DetailResponse. -/
theorem models_no_value_validation :
    (∀ (s v : String) (u : ℚ), (HealthResponse.mk s v u).status = s ∧
      (HealthResponse.mk s v u).version = v ∧
      (HealthResponse.mk s v u).uptime = u) ∧
    (∀ m v t : String,
      (MessageResponse.mk m v t).message = m ∧
      (MessageResponse.mk m v t).version = v ∧
      (MessageResponse.mk m v t).timestamp = t) ∧
    (∀ d : List (String × PyAny), (DetailResponse.mk d).detail = d) ∧
    (∀ (st : ProcState) (r : Request) (c : ClockReading)
      (d : DetailResponse), (handle st r c).1 ≠ .detail d) := by
  refine ⟨fun s v u => ⟨rfl, rfl, rfl⟩, fun m v t => ⟨rfl, rfl, rfl⟩,
    fun d => rfl, fun st r c d => ?_⟩
  cases r <;> simp [handle]

/-- C10: each handler is deterministic in its clock input — two
invocations in the same process (hence with the same startup reading)
that observe the same clock values return identical responses, whatever
requests were served in between. -/
theorem handlers_deterministic (t0 : ℚ)
    (h1 h2 : List (Request × ClockReading)) (r : Request)
    (c : ClockReading) :
    (handle (runReqs (initState t0) h1) r c).1 =
    (handle (runReqs (initState t0) h2) r c).1 := by
  rw [runReqs_fixed, runReqs_fixed]

/-- C2: in one process run whose clock readings never decrease — the
module-load reading t0 followed by the time.time readings of the
successive GET /health calls — every returned uptime is nonnegative and
the uptimes of sequential calls are non-decreasing. -/
theorem uptime_nonneg_and_monotone (t0 : ℚ) (qs : List ℚ)
    (hclock : List.Chain' (· ≤ ·) (t0 :: qs)) :
    (∀ r ∈ qs.map (health_check t0), 0 ≤ r.uptime) ∧
    List.Chain' (fun r r' => r.uptime ≤ r'.uptime)
      (qs.map (health_check t0)) := by
  constructor
  · intro r hr
    rcases List.mem_map.1 hr with ⟨q, hq, rfl⟩
    have hp := List.chain'_iff_pairwise.1 hclock
    have ht : t0 ≤ q := (List.pairwise_cons.1 hp).1 q hq
    simpa [health_check, sub_nonneg] using ht
  · rw [List.chain'_map]
    exact hclock.tail.imp
      (fun a b hab => by simpa [health_check] using sub_le_sub_right hab t0)

/-- C2 witness: three health calls at clock readings 1, 2, 4 in a process
started at clock reading 1. -/
theorem uptime_nonneg_and_monotone_witness :
    (∀ r ∈ [(1 : ℚ), 2, 4].map (health_check 1), 0 ≤ r.uptime) ∧
    List.Chain' (fun r r' => r.uptime ≤ r'.uptime)
      ([(1 : ℚ), 2, 4].map (health_check 1)) :=
  uptime_nonneg_and_monotone 1 [1, 2, 4]
    (by norm_num [List.chain'_cons, List.chain'_singleton])

/-! Digit-level facts for the isoformat rendering and its parse. -/

/-- Decimal digit characters read back to their value. -/
theorem digit_facts :
    ∀ m < 10, isDigitChar (digitChar m) = true ∧ digitVal (digitChar m) = m := by
  decide

/-- Rendered digits of residues are digit characters. -/
theorem isDigitChar_digit (n : Nat) : isDigitChar (digitChar (n % 10)) = true :=
  (digit_facts (n % 10) (Nat.mod_lt n (by decide))).1

/-- Rendered digits of residues read back to the residue. -/
theorem digitVal_digit (n : Nat) : digitVal (digitChar (n % 10)) = n % 10 :=
  (digit_facts (n % 10) (Nat.mod_lt n (by decide))).2

/-- Reading back a two-digit rendering recovers the number. -/
theorem read2_pad2 (n : Nat) (h : n ≤ 99) :
    read2 (digitChar (n / 10 % 10)) (digitChar (n % 10)) = some n := by
  rw [read2, isDigitChar_digit, isDigitChar_digit]
  simp [digitVal_digit]
  omega

/-- Reading back a four-digit rendering recovers the number. -/
theorem read4_pad4 (n : Nat) (h : n ≤ 9999) :
    read4 (digitChar (n / 1000 % 10)) (digitChar (n / 100 % 10))
      (digitChar (n / 10 % 10)) (digitChar (n % 10)) = some n := by
  rw [read4, isDigitChar_digit, isDigitChar_digit, isDigitChar_digit,
    isDigitChar_digit]
  simp [digitVal_digit]
  omega

/-- Reading back a six-digit rendering recovers the number. -/
theorem read6_pad6 (n : Nat) (h : n ≤ 999999) :
    read6 (digitChar (n / 100000 % 10)) (digitChar (n / 10000 % 10))
      (digitChar (n / 1000 % 10)) (digitChar (n / 100 % 10))
      (digitChar (n / 10 % 10)) (digitChar (n % 10)) = some n := by
  rw [read6, isDigitChar_digit, isDigitChar_digit, isDigitChar_digit,
    isDigitChar_digit, isDigitChar_digit, isDigitChar_digit]
  simp [digitVal_digit]
  omega

/-- Rendering an in-range datetime with isoformat and parsing the result
returns the datetime unchanged. -/
theorem parseIso_isoformat (d : PyDateTime) (hv : d.Valid) :
    parseIso (isoformat d) = some d := by
  obtain ⟨y, mo, da, hh, mi, ss, us⟩ := d
  simp only [PyDateTime.Valid] at hv
  obtain ⟨h1, h2, h3, h4, h5, h6, h7, h8, h9, h10⟩ := hv
  show parseIsoChars (isoChars ⟨y, mo, da, hh, mi, ss, us⟩) =
    some ⟨y, mo, da, hh, mi, ss, us⟩
  by_cases hus : us = 0
  · subst hus
    have hV : PyDateTime.Valid ⟨y, mo, da, hh, mi, ss, 0⟩ :=
      ⟨h1, h2, h3, h4, h5, h6, h7, h8, h9, Nat.zero_le _⟩
    simp [isoChars, pad4, pad2, pad6, parseIsoChars, mkValid,
      read4_pad4 y h2, read2_pad2 mo (by omega), read2_pad2 da (by omega),
      read2_pad2 hh (by omega), read2_pad2 mi (by omega),
      read2_pad2 ss (by omega), hV]
  · have hV : PyDateTime.Valid ⟨y, mo, da, hh, mi, ss, us⟩ :=
      ⟨h1, h2, h3, h4, h5, h6, h7, h8, h9, h10⟩
    simp [isoChars, pad4, pad2, pad6, parseIsoChars, mkValid, hus,
      read4_pad4 y h2, read2_pad2 mo (by omega), read2_pad2 da (by omega),
      read2_pad2 hh (by omega), read2_pad2 mi (by omega),
      read2_pad2 ss (by omega), read6_pad6 us h10, hV]

instance : IsTrans PyDateTime (fun a b => a.toKey ≤ b.toKey) :=
  ⟨fun _ _ _ hab hbc => le_trans hab hbc⟩

/-- C6: in one run whose datetime.utcnow readings are in range and never
decrease, every timestamp returned by GET / parses as an ISO-8601
datetime, and the datetimes denoted by the timestamps of sequential
calls are non-decreasing. -/
theorem root_timestamps_parseable_monotone (ts : List PyDateTime)
    (hv : ∀ t ∈ ts, t.Valid)
    (hmono : List.Chain' (fun a b => a.toKey ≤ b.toKey) ts) :
    (∀ s ∈ ts.map (fun t => (root t).timestamp), ∃ d, parseIso s = some d) ∧
    List.Chain' (fun s1 s2 => ∀ d1 d2, parseIso s1 = some d1 →
        parseIso s2 = some d2 → d1.toKey ≤ d2.toKey)
      (ts.map (fun t => (root t).timestamp)) := by
  constructor
  · intro s hs
    rcases List.mem_map.1 hs with ⟨t, ht, rfl⟩
    exact ⟨t, parseIso_isoformat t (hv t ht)⟩
  · have hp : List.Pairwise (fun a b => a.toKey ≤ b.toKey) ts :=
      List.chain'_iff_pairwise.1 hmono
    have hp2 : List.Pairwise (fun a b => ∀ d1 d2,
        parseIso (root a).timestamp = some d1 →
        parseIso (root b).timestamp = some d2 → d1.toKey ≤ d2.toKey) ts := by
      refine hp.imp_of_mem ?_
      intro a b ha hb hab d1 d2 hd1 hd2
      rw [show (root a).timestamp = isoformat a from rfl,
        parseIso_isoformat a (hv a ha)] at hd1
      rw [show (root b).timestamp = isoformat b from rfl,
        parseIso_isoformat b (hv b hb)] at hd2
      simp only [Option.some.injEq] at hd1 hd2
      subst hd1
      subst hd2
      exact hab
    exact (hp2.map (fun t => (root t).timestamp) (fun a b h => h)).chain'

/-- C6 witness: two root calls one second apart on 2024-01-02. -/
theorem root_timestamps_parseable_monotone_witness :
    (∀ s ∈ [PyDateTime.mk 2024 1 2 3 4 5 6,
            PyDateTime.mk 2024 1 2 3 4 6 0].map
        (fun t => (root t).timestamp), ∃ d, parseIso s = some d) ∧
    List.Chain' (fun s1 s2 => ∀ d1 d2, parseIso s1 = some d1 →
        parseIso s2 = some d2 → d1.toKey ≤ d2.toKey)
      ([PyDateTime.mk 2024 1 2 3 4 5 6,
        PyDateTime.mk 2024 1 2 3 4 6 0].map
        (fun t => (root t).timestamp)) :=
  root_timestamps_parseable_monotone
    [PyDateTime.mk 2024 1 2 3 4 5 6, PyDateTime.mk 2024 1 2 3 4 6 0]
    (by decide) (List.chain'_pair.2 (by decide))
